import Mathlib

/-!
Shallow embedding of the client-side post-interaction state manager
(`src/components/shared/PostStats.tsx`): the optimistic like/save toggle
logic of the social-media client.

The component holds two pieces of local state, the `likes` sequence of
viewer identifiers and the `isSaved` flag.  Its environment consists of
the (possibly null) post snapshot, the acting viewer's identifier and the
reactive `currentUser` snapshot.  We model JavaScript `null`/`undefined`
values with `Option`, JavaScript string truthiness explicitly (the empty
string is falsy), exceptions with `Except`, and the remote mutations
(`likePost`, `savePost`, `deleteSavedPost`) plus `console.warn`
diagnostics as explicit output lists of the handlers.
-/

namespace PostStats

/-- A user document occurring in a post's `likes` array; the component only
reads its `$id`. -/
structure UserRef where
  id : String
deriving Repr, DecidableEq

/-- The raw `post.likes` field as it arrives from the backend: it may be
`null`/`undefined` (or another falsy value), a truthy non-array value, or an
actual array of user documents.  Mirrors the guard
`post.likes && Array.isArray(post.likes)`. -/
inductive LikesField where
  | nullish
  | notArray
  | arr (users : List UserRef)
deriving Repr, DecidableEq

/-- The post snapshot.  `id` models `post.$id`, kept optional because the code
accesses it defensively (`post?.$id`). -/
structure Post where
  id : Option String
  likes : LikesField
deriving Repr, DecidableEq

/-- One record of `currentUser.save`.  `id` models `record.$id`; `postId`
models `record.post?.$id` (`none` when `record.post` is null or has no id). -/
structure SavedRecord where
  id : Option String
  postId : Option String
deriving Repr, DecidableEq

/-- The `currentUser` query result: its `save` collection may itself be
absent (`currentUser?.save?` in the code). -/
structure CurrentUser where
  save : Option (List SavedRecord)
deriving Repr, DecidableEq

/-- Local component state: the `likes` and `isSaved` `useState` cells. -/
structure LocalState where
  likes : List String
  isSaved : Bool
deriving Repr, DecidableEq

/-- The remote mutations the component can issue. -/
inductive RemoteCall where
  | likeUpdate (postId : String) (likesArray : List String)
  | saveCreate (postId : String) (userId : String)
  | deleteSaved (recordId : String)
deriving Repr, DecidableEq

/-- Result of running a click handler: the new local state, the remote calls
issued, and the `console.warn` diagnostics emitted. -/
structure HandlerResult where
  state : LocalState
  calls : List RemoteCall
  warnings : List String
deriving Repr, DecidableEq

/-- JavaScript truthiness of `post?.$id`: the post must be present, its id
present, and the id a non-empty string. -/
def postIdTruthy : Option Post → Option String
  | none => none
  | some p =>
    match p.id with
    | none => none
    | some s => if s = "" then none else some s

/-- `likesList`: the seed of the `likes` state for a non-null post,
`post.likes && Array.isArray(post.likes) ? post.likes.map(u => u.$id) : []`. -/
def likesList (p : Post) : List String :=
  match p.likes with
  | LikesField.arr users => users.map UserRef.id
  | _ => []

/-- Component initialization (the top of the function body up to the two
`useState` calls).  When the `post` prop is null/undefined, the unguarded
read `post.likes` on the first line of the body throws a `TypeError`: the
`if (!post)` early return sits below it and is never reached. -/
def initState : Option Post → Except String LocalState
  | none => Except.error "TypeError: cannot read properties of null (reading likes)"
  | some p => Except.ok { likes := likesList p, isSaved := false }

/-- `savedPostRecord`: `currentUser?.save?.find(record => record.post?.$id === post?.$id)`.
Note that `===` on two `undefined` sides is true, so a record with a null
`post` matches a null/id-less post snapshot. -/
def savedPostRecord (currentUser : Option CurrentUser) (post : Option Post) :
    Option SavedRecord :=
  match currentUser with
  | none => none
  | some u =>
    match u.save with
    | none => none
    | some recs => recs.find? (fun r => r.postId == post.bind Post.id)

/-- The `useEffect` derivation pass: `setIsSaved(!!savedPostRecord)`. -/
def derivePass (currentUser : Option CurrentUser) (post : Option Post)
    (st : LocalState) : LocalState :=
  { st with isSaved := (savedPostRecord currentUser post).isSome }

/-- `checkIsLiked(likesArray, userId)`: `likesArray.includes(userId)`. -/
def checkIsLiked (likesArray : List String) (userId : String) : Bool :=
  likesArray.contains userId

/-- `handleLikePost`: toggles the viewer's membership in the local `likes`
sequence (filtering out every equal id when present, appending otherwise),
stores it with `setLikes`, and only then — when `post?.$id` is truthy —
issues the full-replace remote update; otherwise it warns. -/
def handleLikePost (post : Option Post) (userId : String) (st : LocalState) :
    HandlerResult :=
  let hasLiked := st.likes.contains userId
  let newLikes :=
    if hasLiked then st.likes.filter (fun id => id ≠ userId)
    else st.likes ++ [userId]
  match postIdTruthy post with
  | some pid =>
    { state := { st with likes := newLikes }
      calls := [RemoteCall.likeUpdate pid newLikes]
      warnings := [] }
  | none =>
    { state := { st with likes := newLikes }
      calls := []
      warnings := ["Post ID is missing for like action."] }

/-- `handleSavePost`: if a saved record is resolved, `setIsSaved(false)` and
delete it by id when its id is truthy (warn otherwise); else, when both
`post?.$id` and `userId` are truthy, create the record and `setIsSaved(true)`
(warn otherwise, leaving `isSaved` untouched). -/
def handleSavePost (currentUser : Option CurrentUser) (post : Option Post)
    (userId : String) (st : LocalState) : HandlerResult :=
  match savedPostRecord currentUser post with
  | some record =>
    match record.id with
    | some rid =>
      if rid = "" then
        { state := { st with isSaved := false }
          calls := []
          warnings := ["Saved post record ID is missing for delete action."] }
      else
        { state := { st with isSaved := false }
          calls := [RemoteCall.deleteSaved rid]
          warnings := [] }
    | none =>
      { state := { st with isSaved := false }
        calls := []
        warnings := ["Saved post record ID is missing for delete action."] }
  | none =>
    match postIdTruthy post with
    | some pid =>
      if userId = "" then
        { state := st
          calls := []
          warnings := ["Post ID or User ID is missing for save action."] }
      else
        { state := { st with isSaved := true }
          calls := [RemoteCall.saveCreate pid userId]
          warnings := [] }
    | none =>
      { state := st
        calls := []
        warnings := ["Post ID or User ID is missing for save action."] }

/-- The rendered like count: `likes.length`. -/
def likeCount (st : LocalState) : Nat := st.likes.length

/-- Whether the liked icon is shown: `checkIsLiked(likes, userId)`. -/
def likedIcon (st : LocalState) (userId : String) : Bool :=
  checkIsLiked st.likes userId

end PostStats

namespace PostStats

/-! ### Helper lemmas shared by the claim theorems -/

/-- The local likes sequence after `handleLikePost`: every occurrence of the
acting viewer is filtered out when present, otherwise the viewer is appended. -/
theorem handleLikePost_likes (post : Option Post) (v : String) (st : LocalState) :
    (handleLikePost post v st).state.likes =
      (if st.likes.contains v then st.likes.filter (fun i => i ≠ v)
       else st.likes ++ [v]) := by
  cases h : postIdTruthy post <;> simp [handleLikePost, h]

/-- `handleLikePost` never touches the `isSaved` cell. -/
theorem handleLikePost_isSaved (post : Option Post) (v : String) (st : LocalState) :
    (handleLikePost post v st).state.isSaved = st.isSaved := by
  cases h : postIdTruthy post <;> simp [handleLikePost, h]

/-- Membership of a bystander identifier is unchanged by the like toggle. -/
theorem mem_toggle_of_ne (L : List String) (v w : String) (hw : w ≠ v) :
    (w ∈ if L.contains v then L.filter (fun i => i ≠ v) else L ++ [v]) ↔ w ∈ L := by
  by_cases h : v ∈ L <;> simp [h, hw]

end PostStats

namespace PostStats

/-! ### C1 -/

/-- C1 (counterexample): the code removes *every* occurrence of the viewer
with `filter`, not exactly one: starting from the local sequence
`["U1", "U1"]`, toggle-like("U1") yields `[]`, which differs from
`["U1", "U1"]` with one occurrence of `"U1"` removed. -/
theorem C1_counterexample :
    (handleLikePost (some ⟨some "P1", LikesField.arr []⟩) "U1"
        ⟨["U1", "U1"], false⟩).state.likes ≠
      (["U1", "U1"] : List String).erase "U1" := by
  decide

/-- C1 (amended): when the item identifier is present, toggle-like(v)
synchronously replaces the local likes sequence with: the sequence with every
occurrence of v filtered out if v is present, otherwise the sequence with v
appended at the end; and it issues exactly one remote like-update carrying
the item identifier and that entire new sequence, with no diagnostic. -/
theorem C1_toggle_like_full_replace (post : Option Post) (pid : String)
    (hpid : postIdTruthy post = some pid) (v : String) (st : LocalState) :
    (handleLikePost post v st).state.likes =
        (if st.likes.contains v then st.likes.filter (fun i => i ≠ v)
         else st.likes ++ [v]) ∧
      (handleLikePost post v st).calls =
        [RemoteCall.likeUpdate pid (handleLikePost post v st).state.likes] ∧
      (handleLikePost post v st).warnings = [] := by
  refine ⟨handleLikePost_likes post v st, ?_, ?_⟩ <;> simp [handleLikePost, hpid]

/-- C1 witness: the spec's scenario — item `P1` with likes `["U2","U3"]`,
viewer `"U1"`: the new local sequence is `["U2","U3","U1"]` and the single
remote update carries `"P1"` with that full sequence. -/
theorem C1_toggle_like_full_replace_witness :
    (handleLikePost (some ⟨some "P1", LikesField.arr [⟨"U2"⟩, ⟨"U3"⟩]⟩) "U1"
        ⟨["U2", "U3"], false⟩).state.likes = ["U2", "U3", "U1"] ∧
      (handleLikePost (some ⟨some "P1", LikesField.arr [⟨"U2"⟩, ⟨"U3"⟩]⟩) "U1"
        ⟨["U2", "U3"], false⟩).calls =
        [RemoteCall.likeUpdate "P1" ["U2", "U3", "U1"]] := by
  have h := C1_toggle_like_full_replace
    (some ⟨some "P1", LikesField.arr [⟨"U2"⟩, ⟨"U3"⟩]⟩) "P1" (by decide) "U1"
    ⟨["U2", "U3"], false⟩
  exact ⟨h.1.trans (by decide), h.2.1.trans (by decide)⟩

/-! ### C2 -/

/-- C2: after a derivation pass over a viewer snapshot that carries a saved
collection and a post with a present identifier, `isSaved` is true iff the
collection holds a record whose referenced item identifier equals the item's
identifier — whatever the previous (possibly stale) value of `isSaved` was. -/
theorem C2_isSaved_iff_saved_record (u : CurrentUser) (recs : List SavedRecord)
    (hsave : u.save = some recs) (p : Post) (pid : String)
    (hpid : p.id = some pid) (st : LocalState) :
    (derivePass (some u) (some p) st).isSaved = true ↔
      ∃ r ∈ recs, r.postId = some pid := by
  simp [derivePass, savedPostRecord, hsave, hpid, List.find?_isSome]

/-- C2 witness: a saved collection containing a record referencing `P1`
makes the derivation pass set `isSaved` to true from a stale `false`. -/
theorem C2_isSaved_iff_saved_record_witness :
    ((derivePass (some ⟨some [⟨some "R9", some "P1"⟩]⟩)
        (some ⟨some "P1", LikesField.arr []⟩) ⟨[], false⟩).isSaved = true ↔
      ∃ r ∈ [(⟨some "R9", some "P1"⟩ : SavedRecord)], r.postId = some "P1") ∧
      (derivePass (some ⟨some [⟨some "R9", some "P1"⟩]⟩)
        (some ⟨some "P1", LikesField.arr []⟩) ⟨[], false⟩).isSaved = true :=
  ⟨C2_isSaved_iff_saved_record ⟨some [⟨some "R9", some "P1"⟩]⟩ _ rfl
      ⟨some "P1", LikesField.arr []⟩ "P1" rfl ⟨[], false⟩,
    by decide⟩

/-! ### C3 -/

/-- C3 (counterexample): with the item identifier absent, toggle-like still
mutates the local likes sequence (the optimistic update happens before the
identifier guard): from `[]`, toggle-like("U1") leaves local likes
`["U1"]`, not the unchanged `[]` the claim requires. -/
theorem C3_counterexample :
    (handleLikePost (some ⟨none, LikesField.arr []⟩) "U1"
        ⟨[], false⟩).state.likes = ["U1"] ∧
      (["U1"] : List String) ≠ [] := by
  decide

/-- C3 (amended): with the item identifier absent, toggle-like issues no
remote call and emits the diagnostic, and leaves `isSaved` unchanged — but
the local likes sequence is still optimistically toggled. -/
theorem C3_missing_id_like_no_call (post : Option Post)
    (h : postIdTruthy post = none) (v : String) (st : LocalState) :
    (handleLikePost post v st).calls = [] ∧
      (handleLikePost post v st).warnings = ["Post ID is missing for like action."] ∧
      (handleLikePost post v st).state.isSaved = st.isSaved ∧
      (handleLikePost post v st).state.likes =
        (if st.likes.contains v then st.likes.filter (fun i => i ≠ v)
         else st.likes ++ [v]) := by
  refine ⟨?_, ?_, ?_, handleLikePost_likes post v st⟩ <;> simp [handleLikePost, h]

/-- C3 witness: an id-less post, viewer `"U2"` already in the likes: no call,
the diagnostic, `isSaved` kept, and the likes still toggled to `[]`. -/
theorem C3_missing_id_like_no_call_witness :
    (handleLikePost (some ⟨none, LikesField.arr []⟩) "U2"
        ⟨["U2"], true⟩).calls = [] ∧
      (handleLikePost (some ⟨none, LikesField.arr []⟩) "U2"
        ⟨["U2"], true⟩).warnings = ["Post ID is missing for like action."] ∧
      (handleLikePost (some ⟨none, LikesField.arr []⟩) "U2"
        ⟨["U2"], true⟩).state.isSaved = true ∧
      (handleLikePost (some ⟨none, LikesField.arr []⟩) "U2"
        ⟨["U2"], true⟩).state.likes = [] := by
  have h := C3_missing_id_like_no_call (some ⟨none, LikesField.arr []⟩) rfl "U2"
    ⟨["U2"], true⟩
  exact ⟨h.1, h.2.1, h.2.2.1, h.2.2.2.trans (by decide)⟩

end PostStats

namespace PostStats

/-! ### C4 -/

/-- C4 (counterexample): an invocation of toggle-save can issue *neither*
create nor delete: with a saved record resolved for the pair but carrying no
record identifier, the code sets `isSaved` to false and issues no call. -/
theorem C4_counterexample :
    (handleSavePost (some ⟨some [⟨none, some "P1"⟩]⟩)
        (some ⟨some "P1", LikesField.arr []⟩) "U1" ⟨[], true⟩).calls = [] ∧
      (handleSavePost (some ⟨some [⟨none, some "P1"⟩]⟩)
        (some ⟨some "P1", LikesField.arr []⟩) "U1" ⟨[], true⟩).state.isSaved =
        false := by
  decide

/-- C4 (amended): toggle-save issues exactly one of create/delete chosen by
the resolved state at invocation time, *provided the needed identifiers are
present*: a resolved record with a truthy id yields `isSaved := false` and
exactly its delete; no resolved record with a truthy item id and viewer id
yields `isSaved := true` and exactly the create binding viewer to item. -/
theorem C4_toggle_save_dispatch (cu : Option CurrentUser) (post : Option Post)
    (userId : String) (st : LocalState) :
    (∀ record rid, savedPostRecord cu post = some record → record.id = some rid →
        rid ≠ "" →
        handleSavePost cu post userId st =
          ⟨{ st with isSaved := false }, [RemoteCall.deleteSaved rid], []⟩) ∧
      (∀ pid, savedPostRecord cu post = none → postIdTruthy post = some pid →
        userId ≠ "" →
        handleSavePost cu post userId st =
          ⟨{ st with isSaved := true }, [RemoteCall.saveCreate pid userId], []⟩) := by
  constructor
  · intro record rid hrec hrid hne
    simp [handleSavePost, hrec, hrid, hne]
  · intro pid hrec hpid hne
    simp [handleSavePost, hrec, hpid, hne]

/-- C4 witness: the spec's scenario (record `R9` for item `P1` → delete
`"R9"`, `isSaved` false) and the save branch (no record → create `(P1,U1)`,
`isSaved` true). -/
theorem C4_toggle_save_dispatch_witness :
    handleSavePost (some ⟨some [⟨some "R9", some "P1"⟩]⟩)
        (some ⟨some "P1", LikesField.arr []⟩) "U1" ⟨[], true⟩ =
      ⟨⟨[], false⟩, [RemoteCall.deleteSaved "R9"], []⟩ ∧
      handleSavePost (some ⟨some []⟩) (some ⟨some "P1", LikesField.arr []⟩)
        "U1" ⟨[], false⟩ =
      ⟨⟨[], true⟩, [RemoteCall.saveCreate "P1" "U1"], []⟩ := by
  constructor
  · exact (C4_toggle_save_dispatch (some ⟨some [⟨some "R9", some "P1"⟩]⟩)
      (some ⟨some "P1", LikesField.arr []⟩) "U1" ⟨[], true⟩).1
      ⟨some "R9", some "P1"⟩ "R9" (by decide) rfl (by decide)
  · exact (C4_toggle_save_dispatch (some ⟨some []⟩)
      (some ⟨some "P1", LikesField.arr []⟩) "U1" ⟨[], false⟩).2
      "P1" rfl (by decide) (by decide)

/-! ### C5 -/

/-- C5: with the item identifier present, toggling like twice in succession
for the same viewer returns the local like sequence to its original
membership set, and each of the two invocations issues exactly one remote
like-update. -/
theorem C5_double_toggle_membership (post : Option Post) (pid : String)
    (hpid : postIdTruthy post = some pid) (v w : String) (st : LocalState) :
    ((w ∈ (handleLikePost post v (handleLikePost post v st).state).state.likes) ↔
        w ∈ st.likes) ∧
      (handleLikePost post v st).calls.length = 1 ∧
      (handleLikePost post v (handleLikePost post v st).state).calls.length = 1 := by
  refine ⟨?_, ?_, ?_⟩
  · rw [handleLikePost_likes, handleLikePost_likes]
    by_cases hw : w = v
    · subst hw
      by_cases hv : w ∈ st.likes <;> simp [hv]
    · exact (mem_toggle_of_ne _ v w hw).trans (mem_toggle_of_ne _ v w hw)
  · simp [handleLikePost, hpid]
  · simp [handleLikePost, hpid]

/-- C5 witness: item `P1`, likes `["U2"]`, viewer `"U1"`: after two toggles
`"U1"` is (still) not a member, and both invocations issued one call. -/
theorem C5_double_toggle_membership_witness :
    (("U1" ∈ (handleLikePost (some ⟨some "P1", LikesField.arr [⟨"U2"⟩]⟩) "U1"
        (handleLikePost (some ⟨some "P1", LikesField.arr [⟨"U2"⟩]⟩) "U1"
          ⟨["U2"], false⟩).state).state.likes) ↔ "U1" ∈ (["U2"] : List String)) ∧
      (handleLikePost (some ⟨some "P1", LikesField.arr [⟨"U2"⟩]⟩) "U1"
        ⟨["U2"], false⟩).calls.length = 1 ∧
      (handleLikePost (some ⟨some "P1", LikesField.arr [⟨"U2"⟩]⟩) "U1"
        (handleLikePost (some ⟨some "P1", LikesField.arr [⟨"U2"⟩]⟩) "U1"
          ⟨["U2"], false⟩).state).calls.length = 1 :=
  C5_double_toggle_membership (some ⟨some "P1", LikesField.arr [⟨"U2"⟩]⟩) "P1"
    (by decide) "U1" "U1" ⟨["U2"], false⟩

/-! ### C6 -/

/-- C6 (counterexample): with the item identifier absent, toggle-save can
still issue a remote delete and flip `isSaved`: a record whose `post` field
is null matches the id-less post (undefined === undefined), so the delete
branch runs. -/
theorem C6_counterexample :
    (handleSavePost (some ⟨some [⟨some "R9", none⟩]⟩)
        (some ⟨none, LikesField.arr []⟩) "U1" ⟨[], true⟩).calls =
      [RemoteCall.deleteSaved "R9"] ∧
      (handleSavePost (some ⟨some [⟨some "R9", none⟩]⟩)
        (some ⟨none, LikesField.arr []⟩) "U1" ⟨[], true⟩).state.isSaved =
        false := by
  decide

/-- C6 (amended): with the item identifier absent *and no saved record
resolved*, toggle-save issues no remote call, emits the diagnostic, and
leaves the local state (including `isSaved`) unchanged. -/
theorem C6_missing_id_save_no_call (cu : Option CurrentUser) (post : Option Post)
    (userId : String) (st : LocalState) (hid : postIdTruthy post = none)
    (hrec : savedPostRecord cu post = none) :
    (handleSavePost cu post userId st).calls = [] ∧
      (handleSavePost cu post userId st).warnings =
        ["Post ID or User ID is missing for save action."] ∧
      (handleSavePost cu post userId st).state = st := by
  simp [handleSavePost, hrec, hid]

/-- C6 witness: no current user and an id-less post: no call, the
diagnostic, state unchanged. -/
theorem C6_missing_id_save_no_call_witness :
    (handleSavePost none (some ⟨none, LikesField.nullish⟩) "U1"
        ⟨["U2"], true⟩).calls = [] ∧
      (handleSavePost none (some ⟨none, LikesField.nullish⟩) "U1"
        ⟨["U2"], true⟩).warnings =
        ["Post ID or User ID is missing for save action."] ∧
      (handleSavePost none (some ⟨none, LikesField.nullish⟩) "U1"
        ⟨["U2"], true⟩).state = ⟨["U2"], true⟩ :=
  C6_missing_id_save_no_call none (some ⟨none, LikesField.nullish⟩) "U1"
    ⟨["U2"], true⟩ rfl rfl

end PostStats

namespace PostStats

/-! ### C7 -/

/-- C7: at a null/absent post snapshot the component initialization throws —
the first line of the body reads `post.likes` without a guard, and the
`if (!post)` early return below it is never reached.  This contradicts the
documented no-throw propagation policy. -/
theorem C7_null_post_mount_throws :
    initState none =
      Except.error "TypeError: cannot read properties of null (reading likes)" :=
  rfl

/-! ### C8 -/

/-- C8: for an item whose likes field is null/absent or not a sequence, the
seeded like sequence is empty, the initial local state is `⟨[], false⟩`, and
`checkIsLiked` on it returns false for any viewer. -/
theorem C8_nullish_likes_empty (p : Post) (v : String)
    (h : p.likes = LikesField.nullish ∨ p.likes = LikesField.notArray) :
    likesList p = [] ∧ initState (some p) = Except.ok ⟨[], false⟩ ∧
      checkIsLiked (likesList p) v = false := by
  rcases h with h | h <;> cases p <;> simp_all [likesList, initState, checkIsLiked]

/-- C8 witness: a post with a null likes field seeds `[]` and `"U1"` is not
reported as having liked. -/
theorem C8_nullish_likes_empty_witness :
    likesList ⟨some "P1", LikesField.nullish⟩ = [] ∧
      initState (some ⟨some "P1", LikesField.nullish⟩) = Except.ok ⟨[], false⟩ ∧
      checkIsLiked (likesList ⟨some "P1", LikesField.nullish⟩) "U1" = false :=
  C8_nullish_likes_empty ⟨some "P1", LikesField.nullish⟩ "U1" (Or.inl rfl)

/-! ### C9 -/

/-- C9 (counterexample): the seed performs no deduplication, so a remote
snapshot listing the same user twice seeds a local sequence violating the
at-most-once invariant. -/
theorem C9_counterexample :
    ¬ (likesList ⟨some "P1", LikesField.arr [⟨"U1"⟩, ⟨"U1"⟩]⟩).Nodup := by
  decide

/-- C9 (amended): the at-most-once invariant holds in the seeded state
whenever the remote snapshot itself carries no duplicate identifiers, and it
is preserved by every invocation of toggle-like. -/
theorem C9_nodup_seed_and_preserved (p : Post) (users : List UserRef)
    (hp : p.likes = LikesField.arr users) (hnd : (users.map UserRef.id).Nodup)
    (post : Option Post) (v : String) (st : LocalState) (hst : st.likes.Nodup) :
    (likesList p).Nodup ∧ (handleLikePost post v st).state.likes.Nodup := by
  constructor
  · cases p
    simp_all [likesList]
  · rw [handleLikePost_likes]
    by_cases hv : v ∈ st.likes
    · have hc : st.likes.contains v = true := by simpa using hv
      rw [hc, if_pos rfl]
      exact hst.filter _
    · have hc : st.likes.contains v = false := by simpa using hv
      rw [hc, if_neg (by simp)]
      simp [List.nodup_append, hst, hv]

/-- C9 witness: a duplicate-free snapshot seeds a duplicate-free sequence
and a toggle keeps it duplicate-free. -/
theorem C9_nodup_seed_and_preserved_witness :
    (likesList ⟨some "P1", LikesField.arr [⟨"U1"⟩, ⟨"U2"⟩]⟩).Nodup ∧
      (handleLikePost (some ⟨some "P1", LikesField.arr [⟨"U1"⟩, ⟨"U2"⟩]⟩) "U1"
        ⟨["U1", "U2"], false⟩).state.likes.Nodup :=
  C9_nodup_seed_and_preserved ⟨some "P1", LikesField.arr [⟨"U1"⟩, ⟨"U2"⟩]⟩
    [⟨"U1"⟩, ⟨"U2"⟩] rfl (by decide)
    (some ⟨some "P1", LikesField.arr [⟨"U1"⟩, ⟨"U2"⟩]⟩) "U1"
    ⟨["U1", "U2"], false⟩ (by decide)

/-! ### C10 -/

/-- C10: toggle-like(v) is frame-respecting: any bystander identifier w ≠ v
keeps exactly its previous membership in the local like sequence, and the
`isSaved` flag is untouched. -/
theorem C10_like_frame (post : Option Post) (v w : String) (hw : w ≠ v)
    (st : LocalState) :
    ((w ∈ (handleLikePost post v st).state.likes) ↔ w ∈ st.likes) ∧
      (handleLikePost post v st).state.isSaved = st.isSaved := by
  refine ⟨?_, handleLikePost_isSaved post v st⟩
  rw [handleLikePost_likes]
  exact mem_toggle_of_ne _ v w hw

/-- C10 witness: toggling like for `"U1"` keeps bystander `"U2"`'s
membership and the saved flag. -/
theorem C10_like_frame_witness :
    (("U2" ∈ (handleLikePost (some ⟨some "P1", LikesField.arr [⟨"U2"⟩]⟩) "U1"
        ⟨["U2"], true⟩).state.likes) ↔ "U2" ∈ (["U2"] : List String)) ∧
      (handleLikePost (some ⟨some "P1", LikesField.arr [⟨"U2"⟩]⟩) "U1"
        ⟨["U2"], true⟩).state.isSaved = true :=
  C10_like_frame (some ⟨some "P1", LikesField.arr [⟨"U2"⟩]⟩) "U1" "U2"
    (by decide) ⟨["U2"], true⟩

end PostStats
